import Mathlib

/-!
Verification of `compiler.h`: an 8051 compiler-dialect table implemented with
preprocessor conditionals.  The header inspects vendor-identifying predefined
macros and, for the first vendor that matches, defines a fixed macro interface
(VECT, SBIT, SFR, SFRBIT, SFRX, SFR16, SFR16E, SFR32, SFR32E, plus ASM and the
asm-begin/asm-end delimiters under some vendors).

The embedding below mirrors the source:
* `Identity` is the set of vendor-identifying predefined symbols visible to the
  preprocessor (lines 75, 92, 109, 123, 155, 161, 173, 187, 201);
* `Dialect` names the nine branches of the `#if`/`#elif` chain;
* each macro's possible expansion bodies are an inductive with one constructor
  per distinct body occurring in the source, and small attribute functions read
  off that body's text (which parameters occur in it, whether it is a
  volatile-qualified declaration, whether it is an empty comment, ...);
* `sdccTable`, `keilTable`, ... transcribe the nine branches;
* `selectDialect`/`unitTable` transcribe the `#if`/`#elif` chain itself.
-/

/-- The vendor-identifying predefined preprocessor symbols inspected by the
`#if`/`#elif` chain of compiler.h.  `defined X` is a `Bool`; `__IAR_SYSTEMS_ICC__`
is tested by value (line 123 `#elif __IAR_SYSTEMS_ICC__`, an undefined macro
evaluating to 0), so it is carried as a `Nat`; `_CC51` is tested both for
definedness (line 155) and by value (line 161 `#if _CC51 > 71`), so it is
carried as an `Option Int`. -/
structure Identity where
  /-- `defined SDCC` -/
  sdcc : Bool
  /-- `defined __SDCC` -/
  sdcc2 : Bool
  /-- `defined __CX51__` (Keil) -/
  cx51 : Bool
  /-- `defined __RC51__` (Raisonance) -/
  rc51 : Bool
  /-- value of `__IAR_SYSTEMS_ICC__` (0 when undefined) -/
  iarIcc : Nat
  /-- value of `_CC51` when defined (Tasking / Altium) -/
  cc51 : Option Int
  /-- `defined HI_TECH_C` -/
  hiTechC : Bool
  /-- `defined _XC51_VER` (Crossware) -/
  xc51Ver : Bool
  /-- `defined __UC__` (Wickenhaeuser) -/
  uc : Bool
  deriving DecidableEq, Repr

/-- The nine branches of the dialect selector, in source order.  The Tasking
branch keeps the `_CC51` value because line 161 further branches on
`_CC51 > 71`.  `unrecognized` is the default branch (lines 215-226,
`# warning unrecognized compiler`). -/
inductive Dialect where
  | sdcc
  | keil
  | raisonance
  | iar
  | tasking (cc51 : Int)
  | hitech
  | crossware
  | wickenhaeuser
  | unrecognized
  deriving DecidableEq, Repr

/-- Bodies of `VECT(num, addr)`: every branch expands to exactly one of the two
parameters (`num` on lines 76, 93, 110, 156, 188, 217; `addr` on lines
125, 174, 202). -/
inductive VectDef where
  /-- body `num` -/
  | num
  /-- body `addr` -/
  | addr
  deriving DecidableEq, Repr

/-- The token `VECT(num, addr)` expands to, as a function of the two
arguments. -/
def VectDef.expand : VectDef → Nat → Nat → Nat
  | .num, n, _ => n
  | .addr, _, a => a

/-- Does the body of this `VECT` definition mention the `addr` parameter? -/
def VectDef.mentionsAddr : VectDef → Bool
  | .num => false
  | .addr => true

/-- Is the body of this `VECT` definition a volatile-qualified variable
declaration?  (Neither body is: each is a bare parameter.) -/
def VectDef.isVolatileVarDecl : VectDef → Bool
  | .num => false
  | .addr => false

/-- Bodies of `SBIT(name, addr, bit)` occurring in the source, one constructor
per branch. -/
inductive SbitDef where
  /-- line 77: `__sbit  __at(addr+bit)                  name` -/
  | sdccSbit
  /-- line 94: `sbit  name = addr^bit` (Keil byte^bit syntax) -/
  | keilSbit
  /-- line 111: `at (addr+bit) sbit                   name` -/
  | raisSbit
  /-- line 126: `/* not used (to be removed) */` (IAR) -/
  | notUsed
  /-- line 157: `_sfrbit  name _at(addr+bit)` (Tasking) -/
  | taskSbit
  /-- line 175: `volatile bit           name @ (addr+bit)` (Hi-Tech) -/
  | hitechSbit
  /-- line 189: `_sfrbit  name = (addr+bit)` (Crossware) -/
  | crossSbit
  /-- line 203: `unsigned char bit  name @ (addr+bit)` (Wickenhaeuser) -/
  | wickSbit
  /-- line 218: `volatile bool           name` (default) -/
  | plainBool
  deriving DecidableEq, Repr

/-- On the 8051, a bit-addressable SFR byte at address `b` (with `b` a multiple
of 8) exposes its bit `i` at bit address `b + i`; conversely a bit address `a`
names bit `a % 8` of the byte `8 * (a / 8)`. -/
def byteOfBitAddr (a : Nat) : Nat := 8 * (a / 8)

/-- Bit position named by an 8051 bit address. -/
def bitposOfBitAddr (a : Nat) : Nat := a % 8

/-- The (byte address, bit position) pair an `SBIT` expansion resolves its name
to.  The Keil body names the pair directly via `addr^bit`; the other supporting
bodies bind the single 8051 bit address `addr+bit`, which is decoded through
the 8051 bit-addressing rule; the IAR (`/* not used */`) and default
(`volatile bool name`) bodies bind no bit at all. -/
def SbitDef.boundBit : SbitDef → Nat → Nat → Option (Nat × Nat)
  | .keilSbit, addr, bit => some (addr, bit)
  | .sdccSbit, addr, bit
  | .raisSbit, addr, bit
  | .taskSbit, addr, bit
  | .hitechSbit, addr, bit
  | .crossSbit, addr, bit
  | .wickSbit, addr, bit =>
      some (byteOfBitAddr (addr + bit), bitposOfBitAddr (addr + bit))
  | .notUsed, _, _ => none
  | .plainBool, _, _ => none

/-- Does the body of this `SBIT` definition mention the `addr` or `bit`
parameters? -/
def SbitDef.mentionsAddrBit : SbitDef → Bool
  | .notUsed => false
  | .plainBool => false
  | _ => true

/-- Is the body an empty token sequence (a pure comment)? -/
def SbitDef.isEmpty : SbitDef → Bool
  | .notUsed => true
  | _ => false

/-- Is the body a volatile-qualified variable declaration? -/
def SbitDef.isVolatileVarDecl : SbitDef → Bool
  | .hitechSbit => true
  | .plainBool => true
  | _ => false

/-- Bodies of `SFR(name, addr)`, one constructor per branch. -/
inductive SfrDef where
  /-- line 78: `__sfr   __at(addr)                      name` -/
  | sdccSfr
  /-- line 95: `sfr   name = addr` -/
  | keilSfr
  /-- line 112: `sfr at addr                          name` -/
  | raisSfr
  /-- line 127: `__sfr __no_init volatile unsigned char name @ addr` -/
  | iarSfr
  /-- line 158: `_sfrbyte name _at(addr)` -/
  | taskSfr
  /-- line 176: `volatile unsigned char name @ addr` -/
  | hitechSfr
  /-- line 190: `_sfr     name = addr` -/
  | crossSfr
  /-- line 204: `near unsigned char name @ addr` -/
  | wickSfr
  /-- line 219: `volatile unsigned char  name` (default) -/
  | plainUChar
  deriving DecidableEq, Repr

/-- The absolute address an `SFR` expansion binds its name to (every vendor
body places the register at `addr`; the default body carries no address). -/
def SfrDef.boundAddr : SfrDef → Nat → Option Nat
  | .plainUChar, _ => none
  | _, addr => some addr

/-- Does the body of this `SFR` definition mention the `addr` parameter? -/
def SfrDef.mentionsAddr : SfrDef → Bool
  | .plainUChar => false
  | _ => true

/-- Is the body a volatile-qualified variable declaration? -/
def SfrDef.isVolatileVarDecl : SfrDef → Bool
  | .iarSfr => true
  | .hitechSfr => true
  | .plainUChar => true
  | _ => false

/-- Bodies of
`SFRBIT(name, addr, bit7, bit6, bit5, bit4, bit3, bit2, bit1, bit0)`. -/
inductive SfrbitDef where
  /-- `/* not used */` (lines 79, 96, 113, 159, 177, 191, 205) -/
  | notUsed
  /-- lines 128-142: `__sfr __no_init volatile union { unsigned char name;`
  `struct { unsigned char bit0 : 1; ...; unsigned char bit7 : 1; }; } @ addr;`
  (IAR) -/
  | iarUnion
  /-- line 220: body `name` (default) -/
  | bareName
  deriving DecidableEq, Repr

/-- Does this `SFRBIT` body declare storage (a typed register declaration)?
The IAR union declares a volatile union; the empty comment and the bare `name`
token declare nothing. -/
def SfrbitDef.declares : SfrbitDef → Bool
  | .iarUnion => true
  | .notUsed => false
  | .bareName => false

/-- The absolute address an `SFRBIT` expansion binds its union to (only the
IAR body carries `@ addr`). -/
def SfrbitDef.boundAddr : SfrbitDef → Nat → Option Nat
  | .iarUnion, addr => some addr
  | _, _ => none

/-- The widths of the named bit-fields of the overlay struct declared by this
`SFRBIT` body (lines 133-140 declare eight 1-bit fields `bit0` .. `bit7`). -/
def SfrbitDef.bitFieldWidths : SfrbitDef → List Nat
  | .iarUnion => [1, 1, 1, 1, 1, 1, 1, 1]
  | _ => []

/-- Does the body mention the `addr` or `bit7..bit0` parameters? -/
def SfrbitDef.mentionsAddrBits : SfrbitDef → Bool
  | .iarUnion => true
  | _ => false

/-- Is the body an empty token sequence? -/
def SfrbitDef.isEmpty : SfrbitDef → Bool
  | .notUsed => true
  | _ => false

/-- Is the body a volatile-qualified declaration? -/
def SfrbitDef.isVolatileVarDecl : SfrbitDef → Bool
  | .iarUnion => true
  | _ => false

/-- Bodies of `SFRX(name, addr)`, one constructor per branch. -/
inductive SfrxDef where
  /-- line 80: `__xdata volatile unsigned char __at(addr) name` -/
  | sdccSfrx
  /-- line 97: `volatile unsigned char xdata name _at_ addr` -/
  | keilSfrx
  /-- line 114: `xdata at addr volatile unsigned char name` -/
  | raisSfrx
  /-- line 143: `__xdata __no_init volatile unsigned char name @ addr` -/
  | iarSfrx
  /-- line 160: `_xdat volatile unsigned char name _at(addr)` -/
  | taskSfrx
  /-- line 178: `volatile far unsigned char name @ addr` -/
  | hitechSfrx
  /-- line 192: `volatile unsigned char _xdata name _at addr` -/
  | crossSfrx
  /-- line 206: `xdata volatile unsigned char name @ addr` -/
  | wickSfrx
  /-- line 221: `volatile unsigned char  name` (default) -/
  | plainUChar
  deriving DecidableEq, Repr

/-- The xdata address an `SFRX` expansion binds its name to. -/
def SfrxDef.boundAddr : SfrxDef → Nat → Option Nat
  | .plainUChar, _ => none
  | _, addr => some addr

/-- Does the body mention the `addr` parameter? -/
def SfrxDef.mentionsAddr : SfrxDef → Bool
  | .plainUChar => false
  | _ => true

/-- Is the body a volatile-qualified variable declaration?  (Every `SFRX`
body in the source carries `volatile`.) -/
def SfrxDef.isVolatileVarDecl : SfrxDef → Bool
  | _ => true

/-- C evaluation of the SDCC packed 16-bit placement literal
`((addr+1U)<<8) | addr` (line 81).  `1U` promotes the arithmetic to
`unsigned int`, which is 16 bits wide on SDCC's 8051 target, so every
intermediate result is reduced modulo 2^16. -/
def sdccSfr16Hi (addr : Nat) : Nat := (((addr + 1) % 65536) <<< 8) % 65536

/-- The right operand `addr` of the `|`, converted to `unsigned int`. -/
def sdccSfr16Lo (addr : Nat) : Nat := addr % 65536

/-- The full packed literal `((addr+1U)<<8) | addr`. -/
def sdccSfr16At (addr : Nat) : Nat := sdccSfr16Hi addr ||| sdccSfr16Lo addr

/-- C evaluation of the SDCC packed 32-bit placement literal
`((addr+3UL)<<24) | ((addr+2UL)<<16) | ((addr+1UL)<<8) | addr` (line 83).
`UL` promotes to `unsigned long`, 32 bits wide on SDCC, so every intermediate
result is reduced modulo 2^32. -/
def sdccSfr32At (addr : Nat) : Nat :=
  ((((addr + 3) % 4294967296) <<< 24) % 4294967296) |||
    ((((addr + 2) % 4294967296) <<< 16) % 4294967296) |||
      ((((addr + 1) % 4294967296) <<< 8) % 4294967296) |||
        (addr % 4294967296)

/-- Bodies of `SFR16(name, addr)`, one constructor per distinct body. -/
inductive Sfr16Def where
  /-- line 81: `__sfr16 __at(((addr+1U)<<8) | addr)     name` -/
  | sdccSfr16
  /-- line 98: `sfr16 name = addr` (Keil: little-endian pair at addr, addr+1) -/
  | keilSfr16
  /-- line 115: `sfr16 at addr                        name` (Raisonance) -/
  | raisSfr16
  /-- line 144: `__sfr __no_init volatile unsigned int  name @ addr` (IAR) -/
  | iarSfr16
  /-- line 162: `_sfrword _little name _at(addr)` (Tasking, `_CC51 > 71`) -/
  | taskSfr16
  /-- line 193: `_sfrword name = addr` (Crossware) -/
  | crossSfr16
  /-- `/* not supported */` (lines 164, 179, 207) -/
  | notSupported
  /-- line 222: `volatile unsigned short name` (default) -/
  | plainUShort
  deriving DecidableEq, Repr

/-- The (low-byte address, high-byte address) pair an `SFR16` expansion binds
its 16-bit register to.  The SDCC body packs both byte addresses into one
16-bit literal whose low byte is the lsb address and whose high byte is the
msb address (`__sfr16 __at`); the other vendor bodies place a little-endian
16-bit register at `addr`, i.e. its bytes at the adjacent addresses `addr` and
`addr+1` (header doc lines 30-31: "SFR16 and SFR32 define sfr combinations at
adjacent addresses in little-endian format"). -/
def Sfr16Def.boundBytes : Sfr16Def → Nat → Option (Nat × Nat)
  | .sdccSfr16, addr => some (sdccSfr16At addr % 256, sdccSfr16At addr / 256 % 256)
  | .keilSfr16, addr
  | .raisSfr16, addr
  | .iarSfr16, addr
  | .taskSfr16, addr
  | .crossSfr16, addr => some (addr, addr + 1)
  | .notSupported, _ => none
  | .plainUShort, _ => none

/-- Does the body mention the `addr` parameter? -/
def Sfr16Def.mentionsAddr : Sfr16Def → Bool
  | .notSupported => false
  | .plainUShort => false
  | _ => true

/-- Is the body an empty token sequence? -/
def Sfr16Def.isEmpty : Sfr16Def → Bool
  | .notSupported => true
  | _ => false

/-- Is the body a volatile-qualified variable declaration? -/
def Sfr16Def.isVolatileVarDecl : Sfr16Def → Bool
  | .iarSfr16 => true
  | .plainUShort => true
  | _ => false

/-- Bodies of `SFR16E(name, fulladdr)`. -/
inductive Sfr16eDef where
  /-- line 82: `__sfr16 __at(fulladdr)                  name` (SDCC) -/
  | sdccSfr16e
  /-- `/* not supported */` (lines 99, 116, 145, 166, 180, 194, 208) -/
  | notSupported
  /-- line 223: `volatile unsigned short name` (default) -/
  | plainUShort
  deriving DecidableEq, Repr

/-- Does the body mention the `fulladdr` parameter? -/
def Sfr16eDef.mentionsFulladdr : Sfr16eDef → Bool
  | .sdccSfr16e => true
  | _ => false

/-- Is the body an empty token sequence? -/
def Sfr16eDef.isEmpty : Sfr16eDef → Bool
  | .notSupported => true
  | _ => false

/-- Is the body a volatile-qualified variable declaration? -/
def Sfr16eDef.isVolatileVarDecl : Sfr16eDef → Bool
  | .plainUShort => true
  | _ => false

/-- The placement expression carried by an `SFR32` expansion: either a value
computed from the macro arguments, or an identifier that is not a parameter of
the macro (and is therefore unbound at this layer), or nothing. -/
inductive Placement where
  /-- an absolute/packed address value computed from the macro's arguments -/
  | at32 (x : Nat)
  /-- an identifier token that is not among the macro's parameters -/
  | freeIdent (s : String)
  /-- no placement (empty body, or a declaration without address binding) -/
  | nothing
  deriving DecidableEq, Repr

/-- Bodies of `SFR32(name, ...)`. -/
inductive Sfr32Def where
  /-- line 83: parameter `addr`; body
  `__sfr32 __at(((addr+3UL)<<24) | ((addr+2UL)<<16) | ((addr+1UL)<<8) | addr) name` -/
  | sdccSfr32
  /-- line 146: parameter `fulladdr`; body
  `__sfr __no_init volatile unsigned long name @ addr` — the placement
  identifier `addr` is not the parameter (IAR) -/
  | iarSfr32
  /-- `/* not supported */` (lines 100, 117, 167, 181, 195, 209) -/
  | notSupported
  /-- line 224: parameter `fulladdr`; body `volatile unsigned long  name` -/
  | plainULong
  deriving DecidableEq, Repr

/-- The placement expression of an `SFR32` expansion, as a function of the
macro's single address argument.  The IAR body writes `@ addr` while its
parameter is named `fulladdr`, so its placement is the free identifier `addr`
and the argument is discarded. -/
def Sfr32Def.placement : Sfr32Def → Nat → Placement
  | .sdccSfr32, addr => .at32 (sdccSfr32At addr)
  | .iarSfr32, _ => .freeIdent "addr"
  | .notSupported, _ => .nothing
  | .plainULong, _ => .nothing

/-- Does the body reference an identifier that is not one of the macro's
parameters?  Only the IAR `SFR32` body does (`addr` at line 146, whose
parameter list is `(name, fulladdr)`). -/
def Sfr32Def.referencesUnbound : Sfr32Def → Bool
  | .iarSfr32 => true
  | _ => false

/-- Does the body mention the address parameter it was given
(`addr` for SDCC, `fulladdr` for the others)? -/
def Sfr32Def.mentionsArg : Sfr32Def → Bool
  | .sdccSfr32 => true
  | _ => false

/-- Is the body an empty token sequence? -/
def Sfr32Def.isEmpty : Sfr32Def → Bool
  | .notSupported => true
  | _ => false

/-- Is the body a volatile-qualified variable declaration? -/
def Sfr32Def.isVolatileVarDecl : Sfr32Def → Bool
  | .iarSfr32 => true
  | .plainULong => true
  | _ => false

/-- Bodies of `SFR32E(name, fulladdr)`. -/
inductive Sfr32eDef where
  /-- line 84: `__sfr32 __at(fulladdr)                  name` (SDCC) -/
  | sdccSfr32e
  /-- `/* not supported */` (lines 101, 118, 147, 168, 182, 196, 210) -/
  | notSupported
  /-- line 225: `volatile unsigned long  name` (default) -/
  | plainULong
  deriving DecidableEq, Repr

/-- Does the body mention the `fulladdr` parameter? -/
def Sfr32eDef.mentionsFulladdr : Sfr32eDef → Bool
  | .sdccSfr32e => true
  | _ => false

/-- Is the body an empty token sequence? -/
def Sfr32eDef.isEmpty : Sfr32eDef → Bool
  | .notSupported => true
  | _ => false

/-- Is the body a volatile-qualified variable declaration? -/
def Sfr32eDef.isVolatileVarDecl : Sfr32eDef → Bool
  | .plainULong => true
  | _ => false

/-- Bodies of `ASM(...)` where defined (lines 85, 102, 148); most branches do
not define `ASM` at all, which the dialect tables record with `Option`. -/
inductive AsmDef where
  /-- `__VA_ARGS__` (SDCC line 85, Keil line 102) -/
  | passThrough
  /-- `asm(#__VA_ARGS__);` (IAR line 148) -/
  | stringize
  deriving DecidableEq, Repr

/-- The macro interface one branch of the header defines.  The nine
declaration macros are defined by every branch; `ASM`, `__asm_begin` and
`__asm_end` only by some, hence `Option`.  `warning` records whether the
branch carries a `#warning` directive. -/
structure MacroTable where
  vect : VectDef
  sbit : SbitDef
  sfr : SfrDef
  sfrbit : SfrbitDef
  sfrx : SfrxDef
  sfr16 : Sfr16Def
  sfr16e : Sfr16eDef
  sfr32 : Sfr32Def
  sfr32e : Sfr32eDef
  asm : Option AsmDef
  asmBegin : Option String
  asmEnd : Option String
  warning : Bool
  deriving DecidableEq, Repr

/-- Lines 75-87: the SDCC branch. -/
def sdccTable : MacroTable where
  vect := .num
  sbit := .sdccSbit
  sfr := .sdccSfr
  sfrbit := .notUsed
  sfrx := .sdccSfrx
  sfr16 := .sdccSfr16
  sfr16e := .sdccSfr16e
  sfr32 := .sdccSfr32
  sfr32e := .sdccSfr32e
  asm := some .passThrough
  asmBegin := some "__asm"
  asmEnd := some "__endasm"
  warning := false

/-- Lines 92-104: the Keil C51 branch. -/
def keilTable : MacroTable where
  vect := .num
  sbit := .keilSbit
  sfr := .keilSfr
  sfrbit := .notUsed
  sfrx := .keilSfrx
  sfr16 := .keilSfr16
  sfr16e := .notSupported
  sfr32 := .notSupported
  sfr32e := .notSupported
  asm := some .passThrough
  asmBegin := some "__asm\x7b"
  asmEnd := some "\x7d"
  warning := false

/-- Lines 109-118: the Raisonance branch (no ASM, no asm delimiters). -/
def raisonanceTable : MacroTable where
  vect := .num
  sbit := .raisSbit
  sfr := .raisSfr
  sfrbit := .notUsed
  sfrx := .raisSfrx
  sfr16 := .raisSfr16
  sfr16e := .notSupported
  sfr32 := .notSupported
  sfr32e := .notSupported
  asm := none
  asmBegin := none
  asmEnd := none
  warning := false

/-- Lines 123-150: the IAR branch. -/
def iarTable : MacroTable where
  vect := .addr
  sbit := .notUsed
  sfr := .iarSfr
  sfrbit := .iarUnion
  sfrx := .iarSfrx
  sfr16 := .iarSfr16
  sfr16e := .notSupported
  sfr32 := .iarSfr32
  sfr32e := .notSupported
  asm := some .stringize
  asmBegin := some ""
  asmEnd := some ""
  warning := false

/-- Lines 155-168: the Tasking / Altium branch; `SFR16` depends on the value
of `_CC51` (line 161 `#if _CC51 > 71`). -/
def taskingTable (v : Int) : MacroTable where
  vect := .num
  sbit := .taskSbit
  sfr := .taskSfr
  sfrbit := .notUsed
  sfrx := .taskSfrx
  sfr16 := if v > 71 then .taskSfr16 else .notSupported
  sfr16e := .notSupported
  sfr32 := .notSupported
  sfr32e := .notSupported
  asm := none
  asmBegin := none
  asmEnd := none
  warning := false

/-- Lines 173-182: the Hi-Tech branch. -/
def hitechTable : MacroTable where
  vect := .addr
  sbit := .hitechSbit
  sfr := .hitechSfr
  sfrbit := .notUsed
  sfrx := .hitechSfrx
  sfr16 := .notSupported
  sfr16e := .notSupported
  sfr32 := .notSupported
  sfr32e := .notSupported
  asm := none
  asmBegin := none
  asmEnd := none
  warning := false

/-- Lines 187-196: the Crossware branch. -/
def crosswareTable : MacroTable where
  vect := .num
  sbit := .crossSbit
  sfr := .crossSfr
  sfrbit := .notUsed
  sfrx := .crossSfrx
  sfr16 := .crossSfr16
  sfr16e := .notSupported
  sfr32 := .notSupported
  sfr32e := .notSupported
  asm := none
  asmBegin := none
  asmEnd := none
  warning := false

/-- Lines 201-210: the Wickenhaeuser branch. -/
def wickenhaeuserTable : MacroTable where
  vect := .addr
  sbit := .wickSbit
  sfr := .wickSfr
  sfrbit := .notUsed
  sfrx := .wickSfrx
  sfr16 := .notSupported
  sfr16e := .notSupported
  sfr32 := .notSupported
  sfr32e := .notSupported
  asm := none
  asmBegin := none
  asmEnd := none
  warning := false

/-- Lines 215-226: the default branch (`# warning unrecognized compiler`). -/
def defaultTable : MacroTable where
  vect := .num
  sbit := .plainBool
  sfr := .plainUChar
  sfrbit := .bareName
  sfrx := .plainUChar
  sfr16 := .plainUShort
  sfr16e := .plainUShort
  sfr32 := .plainULong
  sfr32e := .plainULong
  asm := none
  asmBegin := none
  asmEnd := none
  warning := true

/-- The descriptor of each dialect. -/
def dialectTable : Dialect → MacroTable
  | .sdcc => sdccTable
  | .keil => keilTable
  | .raisonance => raisonanceTable
  | .iar => iarTable
  | .tasking v => taskingTable v
  | .hitech => hitechTable
  | .crossware => crosswareTable
  | .wickenhaeuser => wickenhaeuserTable
  | .unrecognized => defaultTable

/-- The `#if`/`#elif` chain of lines 75, 92, 109, 123, 155, 173, 187, 201, 215
as a dialect selector: the first condition that holds wins, and the `#else`
branch is the default. -/
def selectDialect (i : Identity) : Dialect :=
  if i.sdcc || i.sdcc2 then .sdcc
  else if i.cx51 then .keil
  else if i.rc51 then .raisonance
  else if i.iarIcc != 0 then .iar
  else if h : i.cc51.isSome then .tasking (i.cc51.get h)
  else if i.hiTechC then .hitech
  else if i.xc51Ver then .crossware
  else if i.uc then .wickenhaeuser
  else .unrecognized

/-- The macro definitions the preprocessor leaves in effect for a unit,
written as the same `#if`/`#elif` chain with each branch's table in place. -/
def unitTable (i : Identity) : MacroTable :=
  if i.sdcc || i.sdcc2 then sdccTable
  else if i.cx51 then keilTable
  else if i.rc51 then raisonanceTable
  else if i.iarIcc != 0 then iarTable
  else if h : i.cc51.isSome then taskingTable (i.cc51.get h)
  else if i.hiTechC then hitechTable
  else if i.xc51Ver then crosswareTable
  else if i.uc then wickenhaeuserTable
  else defaultTable

/-- The ordered branch list of the selector: each branch's condition paired
with the dialect it selects, in source order (the default closes the chain). -/
def branchConds (i : Identity) : List (Bool × Dialect) :=
  [ (i.sdcc || i.sdcc2, .sdcc),
    (i.cx51, .keil),
    (i.rc51, .raisonance),
    (i.iarIcc != 0, .iar),
    (i.cc51.isSome, .tasking (i.cc51.getD 0)),
    (i.hiTechC, .hitech),
    (i.xc51Ver, .crossware),
    (i.uc, .wickenhaeuser) ]

/-- First-match-wins over an ordered branch list; an exhausted list falls to
the default dialect. -/
def firstMatch : List (Bool × Dialect) → Dialect
  | [] => .unrecognized
  | (true, d) :: _ => d
  | (false, _) :: rest => firstMatch rest

/-- Preprocessor state relevant to the include guard: whether `COMPILER_H` is
defined, and which macro table (if any) is in effect. -/
structure PPEnv where
  compilerH : Bool
  table : Option MacroTable
  deriving DecidableEq, Repr

/-- Including compiler.h once in a unit whose identity symbols are `i`:
lines 69-70 skip the whole body when `COMPILER_H` is already defined, and
otherwise define `COMPILER_H` and the selected branch's macros. -/
def includeCompilerH (i : Identity) (e : PPEnv) : PPEnv :=
  if e.compilerH then e
  else { compilerH := true, table := some (unitTable i) }

set_option maxRecDepth 40000

/-- The SDCC 16-bit packed placement literal decodes to the two adjacent byte
addresses: its low byte is `addr`, its high byte is `addr+1`, and the two
operands of the `|` share no set bit. -/
theorem sdccSfr16At_decodes :
    ∀ a, a < 255 →
      sdccSfr16At a % 256 = a ∧ sdccSfr16At a / 256 % 256 = a + 1 ∧
        sdccSfr16Hi a &&& sdccSfr16Lo a = 0 := by decide

/-- C1: under every vendor dialect that supports SFR16 (SDCC, Keil, IAR,
Tasking with `_CC51 > 71`, Crossware) and every byte address `addr ≤ 0xFE`,
the expansion of `SFR16(name, addr)` binds the low byte at `addr` and the high
byte at `addr+1`; under SDCC the packed literal `((addr+1U)<<8) | addr` has
low byte `addr`, high byte `addr+1`, and no overlapping bits between its two
operands. -/
theorem sfr16_binds_low_at_addr_high_at_succ
    (addr : Nat) (h : addr ≤ 0xFE) (v : Int) (hv : 71 < v) :
    Sfr16Def.boundBytes (dialectTable Dialect.sdcc).sfr16 addr = some (addr, addr + 1) ∧
    Sfr16Def.boundBytes (dialectTable Dialect.keil).sfr16 addr = some (addr, addr + 1) ∧
    Sfr16Def.boundBytes (dialectTable Dialect.iar).sfr16 addr = some (addr, addr + 1) ∧
    Sfr16Def.boundBytes (dialectTable (Dialect.tasking v)).sfr16 addr = some (addr, addr + 1) ∧
    Sfr16Def.boundBytes (dialectTable Dialect.crossware).sfr16 addr = some (addr, addr + 1) ∧
    sdccSfr16At addr % 256 = addr ∧
    sdccSfr16At addr / 256 % 256 = addr + 1 ∧
    sdccSfr16Hi addr &&& sdccSfr16Lo addr = 0 := by
  obtain ⟨h1, h2, h3⟩ := sdccSfr16At_decodes addr (by omega)
  refine ⟨?_, rfl, rfl, ?_, rfl, h1, h2, h3⟩
  · simp [dialectTable, sdccTable, Sfr16Def.boundBytes, h1, h2]
  · simp [dialectTable, taskingTable, hv, Sfr16Def.boundBytes]

/-- Witness for C1 at the spec's own example `SFR16(TMR2, 0xCC)` (lsb at 0xCC,
msb at 0xCD) and Tasking `_CC51 = 72`. -/
theorem sfr16_binds_low_at_addr_high_at_succ_witness :
    Sfr16Def.boundBytes (dialectTable Dialect.sdcc).sfr16 0xCC = some (0xCC, 0xCD) ∧
    Sfr16Def.boundBytes (dialectTable Dialect.keil).sfr16 0xCC = some (0xCC, 0xCD) :=
  ⟨(sfr16_binds_low_at_addr_high_at_succ 0xCC (by decide) 72 (by decide)).1,
   (sfr16_binds_low_at_addr_high_at_succ 0xCC (by decide) 72 (by decide)).2.1⟩

/-- C7: under every vendor dialect that supports bit addressing (SDCC, Keil,
Raisonance, Tasking, Hi-Tech, Crossware, Wickenhaeuser), for a bit-addressable
byte address `addr` (a multiple of 8) and a bit position `bit ≤ 7`, the
expansion of `SBIT(name, addr, bit)` resolves the name to bit `bit` of the
byte at `addr` (the bit address `addr + bit`). -/
theorem sbit_resolves_bit_of_byte
    (addr bit : Nat) (h8 : addr % 8 = 0) (hb : bit ≤ 7) (v : Int) :
    SbitDef.boundBit (dialectTable Dialect.sdcc).sbit addr bit = some (addr, bit) ∧
    SbitDef.boundBit (dialectTable Dialect.keil).sbit addr bit = some (addr, bit) ∧
    SbitDef.boundBit (dialectTable Dialect.raisonance).sbit addr bit = some (addr, bit) ∧
    SbitDef.boundBit (dialectTable (Dialect.tasking v)).sbit addr bit = some (addr, bit) ∧
    SbitDef.boundBit (dialectTable Dialect.hitech).sbit addr bit = some (addr, bit) ∧
    SbitDef.boundBit (dialectTable Dialect.crossware).sbit addr bit = some (addr, bit) ∧
    SbitDef.boundBit (dialectTable Dialect.wickenhaeuser).sbit addr bit = some (addr, bit) := by
  have hbyte : byteOfBitAddr (addr + bit) = addr := by
    unfold byteOfBitAddr; omega
  have hpos : bitposOfBitAddr (addr + bit) = bit := by
    unfold bitposOfBitAddr; omega
  refine ⟨?_, rfl, ?_, ?_, ?_, ?_, ?_⟩ <;>
    simp [dialectTable, sdccTable, raisonanceTable, taskingTable, hitechTable,
      crosswareTable, wickenhaeuserTable, SbitDef.boundBit, hbyte, hpos]

/-- Witness for C7 at the spec's own example `SBIT(P0_1, 0x80, 1)`: bit 1 of
byte 0x80, bit address 0x81. -/
theorem sbit_resolves_bit_of_byte_witness :
    SbitDef.boundBit (dialectTable Dialect.sdcc).sbit 0x80 1 = some (0x80, 1) ∧
    0x80 + 1 = 0x81 :=
  ⟨(sbit_resolves_bit_of_byte 0x80 1 (by decide) (by decide) 0).1, by decide⟩

/-- C8: `SFRBIT` is functional only under IAR, where it expands to a
volatile-qualified union overlaying an 8-bit register at `addr` with eight
named single-bit fields; under every other dialect (including the default) it
declares nothing. -/
theorem sfrbit_functional_only_under_iar :
    (∀ d : Dialect, (dialectTable d).sfrbit.declares = true ↔ d = Dialect.iar) ∧
    (dialectTable Dialect.iar).sfrbit = SfrbitDef.iarUnion ∧
    SfrbitDef.isVolatileVarDecl SfrbitDef.iarUnion = true ∧
    (∀ a : Nat, SfrbitDef.boundAddr SfrbitDef.iarUnion a = some a) ∧
    SfrbitDef.bitFieldWidths SfrbitDef.iarUnion = [1, 1, 1, 1, 1, 1, 1, 1] := by
  refine ⟨fun d => ?_, rfl, rfl, fun a => rfl, rfl⟩
  cases d <;>
    simp [dialectTable, sdccTable, keilTable, raisonanceTable, iarTable, taskingTable,
      hitechTable, crosswareTable, wickenhaeuserTable, defaultTable, SfrbitDef.declares]

/-- C9: under every dialect, `VECT(num, addr)` expands to exactly one of its
two arguments — `num` under SDCC, Keil, Raisonance, Tasking, Crossware and the
default, `addr` under IAR, Hi-Tech and Wickenhaeuser — so the non-selected
argument has no effect on the result. -/
theorem vect_expands_to_exactly_one_argument (num addr : Nat) (v : Int) :
    VectDef.expand (dialectTable Dialect.sdcc).vect num addr = num ∧
    VectDef.expand (dialectTable Dialect.keil).vect num addr = num ∧
    VectDef.expand (dialectTable Dialect.raisonance).vect num addr = num ∧
    VectDef.expand (dialectTable Dialect.iar).vect num addr = addr ∧
    VectDef.expand (dialectTable (Dialect.tasking v)).vect num addr = num ∧
    VectDef.expand (dialectTable Dialect.hitech).vect num addr = addr ∧
    VectDef.expand (dialectTable Dialect.crossware).vect num addr = num ∧
    VectDef.expand (dialectTable Dialect.wickenhaeuser).vect num addr = addr ∧
    VectDef.expand (dialectTable Dialect.unrecognized).vect num addr = num :=
  ⟨rfl, rfl, rfl, rfl, rfl, rfl, rfl, rfl, rfl⟩

/-- The SDCC 32-bit packed placement literal decodes to the four ascending
byte addresses `addr, addr+1, addr+2, addr+3`. -/
theorem sdccSfr32At_decodes :
    ∀ a, a < 253 →
      sdccSfr32At a % 256 = a ∧ sdccSfr32At a / 256 % 256 = a + 1 ∧
        sdccSfr32At a / 65536 % 256 = a + 2 ∧
        sdccSfr32At a / 16777216 % 256 = a + 3 := by decide

/-- C2 (failing input): under IAR, `SFR32(name, 0x93)` does not place the
register at its argument: the macro's parameter is `fulladdr` (line 146) but
the body writes `@ addr`, so the placement expression of the expansion is the
free identifier `addr`, not the address 0x93. -/
theorem iar_sfr32_placement_is_free_identifier :
    Sfr32Def.placement (dialectTable Dialect.iar).sfr32 0x93 = Placement.freeIdent "addr" ∧
    Placement.freeIdent "addr" ≠ Placement.at32 0x93 ∧
    Sfr32Def.mentionsArg (dialectTable Dialect.iar).sfr32 = false :=
  ⟨rfl, by decide, rfl⟩

/-- An identity with no vendor symbol defined. -/
def blankIdentity : Identity where
  sdcc := false
  sdcc2 := false
  cx51 := false
  rc51 := false
  iarIcc := 0
  cc51 := none
  hiTechC := false
  xc51Ver := false
  uc := false

/-- C3 (counterexample): in the default dialect, `VECT(num, addr)` expands to
its `num` argument, which is not a volatile-qualified variable declaration, so
not every macro of the default interface expands to one. -/
theorem default_vect_is_not_a_volatile_declaration :
    (dialectTable Dialect.unrecognized).vect = VectDef.num ∧
    VectDef.isVolatileVarDecl VectDef.num = false ∧
    (dialectTable Dialect.unrecognized).sfrbit = SfrbitDef.bareName ∧
    SfrbitDef.isVolatileVarDecl SfrbitDef.bareName = false :=
  ⟨rfl, rfl, rfl, rfl⟩

/-- C3 (amended): if no recognized vendor-identity symbol is defined, the
default dialect is selected and its `#warning` diagnostic is active; no macro
expansion mentions the `addr`/`fulladdr`/`bit` arguments; the register
declaration macros SBIT, SFR, SFRX, SFR16, SFR16E, SFR32 and SFR32E expand to
plain volatile-qualified variable declarations, while VECT expands to its
`num` argument and SFRBIT to the bare register name. -/
theorem default_dialect_on_unrecognized_identity (i : Identity)
    (h : i.sdcc = false ∧ i.sdcc2 = false ∧ i.cx51 = false ∧ i.rc51 = false ∧
      i.iarIcc = 0 ∧ i.cc51 = none ∧ i.hiTechC = false ∧ i.xc51Ver = false ∧
      i.uc = false) :
    selectDialect i = Dialect.unrecognized ∧
    (unitTable i).warning = true ∧
    (unitTable i).vect.mentionsAddr = false ∧
    (unitTable i).sbit.mentionsAddrBit = false ∧
    (unitTable i).sfr.mentionsAddr = false ∧
    (unitTable i).sfrbit.mentionsAddrBits = false ∧
    (unitTable i).sfrx.mentionsAddr = false ∧
    (unitTable i).sfr16.mentionsAddr = false ∧
    (unitTable i).sfr16e.mentionsFulladdr = false ∧
    (unitTable i).sfr32.mentionsArg = false ∧
    (unitTable i).sfr32e.mentionsFulladdr = false ∧
    (unitTable i).sbit.isVolatileVarDecl = true ∧
    (unitTable i).sfr.isVolatileVarDecl = true ∧
    (unitTable i).sfrx.isVolatileVarDecl = true ∧
    (unitTable i).sfr16.isVolatileVarDecl = true ∧
    (unitTable i).sfr16e.isVolatileVarDecl = true ∧
    (unitTable i).sfr32.isVolatileVarDecl = true ∧
    (unitTable i).sfr32e.isVolatileVarDecl = true ∧
    (unitTable i).vect = VectDef.num ∧
    (unitTable i).sfrbit = SfrbitDef.bareName := by
  obtain ⟨h1, h2, h3, h4, h5, h6, h7, h8, h9⟩ := h
  have ht : unitTable i = defaultTable := by
    simp [unitTable, h1, h2, h3, h4, h5, h6, h7, h8, h9]
  have hs : selectDialect i = Dialect.unrecognized := by
    simp [selectDialect, h1, h2, h3, h4, h5, h6, h7, h8, h9]
  rw [ht, hs]
  exact ⟨rfl, rfl, rfl, rfl, rfl, rfl, rfl, rfl, rfl, rfl, rfl, rfl, rfl, rfl,
    rfl, rfl, rfl, rfl, rfl, rfl⟩

/-- Witness for C3 at the identity with every vendor symbol absent. -/
theorem default_dialect_on_unrecognized_identity_witness :
    selectDialect blankIdentity = Dialect.unrecognized ∧
    (unitTable blankIdentity).warning = true :=
  ⟨(default_dialect_on_unrecognized_identity blankIdentity (by decide)).1,
   (default_dialect_on_unrecognized_identity blankIdentity (by decide)).2.1⟩

/-- C4 (counterexample): `SFR32` under IAR is an entry point the vendor does
not properly support, yet its expansion is not inert: its body references the
identifier `addr`, which is not among the macro's parameters
`(name, fulladdr)`. -/
theorem iar_sfr32_references_unbound_identifier :
    Sfr32Def.referencesUnbound (dialectTable Dialect.iar).sfr32 = true ∧
    Sfr32Def.isEmpty (dialectTable Dialect.iar).sfr32 = false :=
  ⟨rfl, rfl⟩

/-- C4 (amended): every macro entry point a vendor dialect leaves unsupported
(`/* not supported */` or `/* not used */`) expands to an empty token sequence
— hence inert, referencing no identifier at all and raising no diagnostic —
with the single exception of SFR32 under IAR, whose non-empty expansion
references the unbound identifier `addr`. -/
theorem unsupported_macros_expand_to_empty (v : Int) (hv : v ≤ 71) :
    SfrbitDef.isEmpty (dialectTable Dialect.sdcc).sfrbit = true ∧
    SfrbitDef.isEmpty (dialectTable Dialect.keil).sfrbit = true ∧
    Sfr16eDef.isEmpty (dialectTable Dialect.keil).sfr16e = true ∧
    Sfr32Def.isEmpty (dialectTable Dialect.keil).sfr32 = true ∧
    Sfr32eDef.isEmpty (dialectTable Dialect.keil).sfr32e = true ∧
    SfrbitDef.isEmpty (dialectTable Dialect.raisonance).sfrbit = true ∧
    Sfr16eDef.isEmpty (dialectTable Dialect.raisonance).sfr16e = true ∧
    Sfr32Def.isEmpty (dialectTable Dialect.raisonance).sfr32 = true ∧
    Sfr32eDef.isEmpty (dialectTable Dialect.raisonance).sfr32e = true ∧
    SbitDef.isEmpty (dialectTable Dialect.iar).sbit = true ∧
    Sfr16eDef.isEmpty (dialectTable Dialect.iar).sfr16e = true ∧
    Sfr32eDef.isEmpty (dialectTable Dialect.iar).sfr32e = true ∧
    SfrbitDef.isEmpty (dialectTable (Dialect.tasking v)).sfrbit = true ∧
    Sfr16Def.isEmpty (dialectTable (Dialect.tasking v)).sfr16 = true ∧
    Sfr16eDef.isEmpty (dialectTable (Dialect.tasking v)).sfr16e = true ∧
    Sfr32Def.isEmpty (dialectTable (Dialect.tasking v)).sfr32 = true ∧
    Sfr32eDef.isEmpty (dialectTable (Dialect.tasking v)).sfr32e = true ∧
    SfrbitDef.isEmpty (dialectTable Dialect.hitech).sfrbit = true ∧
    Sfr16Def.isEmpty (dialectTable Dialect.hitech).sfr16 = true ∧
    Sfr16eDef.isEmpty (dialectTable Dialect.hitech).sfr16e = true ∧
    Sfr32Def.isEmpty (dialectTable Dialect.hitech).sfr32 = true ∧
    Sfr32eDef.isEmpty (dialectTable Dialect.hitech).sfr32e = true ∧
    SfrbitDef.isEmpty (dialectTable Dialect.crossware).sfrbit = true ∧
    Sfr16eDef.isEmpty (dialectTable Dialect.crossware).sfr16e = true ∧
    Sfr32Def.isEmpty (dialectTable Dialect.crossware).sfr32 = true ∧
    Sfr32eDef.isEmpty (dialectTable Dialect.crossware).sfr32e = true ∧
    SfrbitDef.isEmpty (dialectTable Dialect.wickenhaeuser).sfrbit = true ∧
    Sfr16Def.isEmpty (dialectTable Dialect.wickenhaeuser).sfr16 = true ∧
    Sfr16eDef.isEmpty (dialectTable Dialect.wickenhaeuser).sfr16e = true ∧
    Sfr32Def.isEmpty (dialectTable Dialect.wickenhaeuser).sfr32 = true ∧
    Sfr32eDef.isEmpty (dialectTable Dialect.wickenhaeuser).sfr32e = true ∧
    Sfr32Def.isEmpty (dialectTable Dialect.iar).sfr32 = false ∧
    Sfr32Def.referencesUnbound (dialectTable Dialect.iar).sfr32 = true := by
  have hle : ¬ (v > 71) := by omega
  refine ⟨rfl, rfl, rfl, rfl, rfl, rfl, rfl, rfl, rfl, rfl, rfl, rfl, rfl, ?_,
    rfl, rfl, rfl, rfl, rfl, rfl, rfl, rfl, rfl, rfl, rfl, rfl, rfl, rfl, rfl,
    rfl, rfl, rfl, rfl⟩
  simp [dialectTable, taskingTable, hle, Sfr16Def.isEmpty]

/-- Witness for C4 at Tasking `_CC51 = 71` (the largest value below the
`_CC51 > 71` threshold). -/
theorem unsupported_macros_expand_to_empty_witness :
    Sfr16Def.isEmpty (dialectTable (Dialect.tasking 71)).sfr16 = true ∧
    Sfr32Def.referencesUnbound (dialectTable Dialect.iar).sfr32 = true :=
  ⟨(unsupported_macros_expand_to_empty 71 (by decide)).2.2.2.2.2.2.2.2.2.2.2.2.2.1,
   (unsupported_macros_expand_to_empty 71 (by decide)).2.2.2.2.2.2.2.2.2.2.2.2.2.2.2.2.2.2.2.2.2.2.2.2.2.2.2.2.2.2.2.2⟩

/-- C5: for every assignment of the vendor-identity symbols, the selected
dialect is the first branch of the fixed order SDCC, Keil, Raisonance, IAR,
Tasking, Hi-Tech, Crossware, Wickenhaeuser whose condition holds (default when
none does), and every macro definition in effect in the unit comes from that
single dialect's descriptor. -/
theorem dialect_selection_is_first_match (i : Identity) :
    selectDialect i = firstMatch (branchConds i) ∧
    unitTable i = dialectTable (selectDialect i) := by
  rcases i with ⟨s1, s2, cx, rc, iar, cc, ht, xc, u⟩
  cases s1 <;> cases s2 <;> cases cx <;> cases rc <;> cases cc <;> cases ht <;>
    cases xc <;> cases u <;>
    by_cases hi : (iar != 0) = true <;>
    simp [selectDialect, unitTable, branchConds, firstMatch, dialectTable, hi]

/-- C6 (counterexample): the Raisonance branch defines no `ASM` macro and no
asm-begin/asm-end delimiters, and neither does the default branch, so not
every entry point of the interface is available under every dialect. -/
theorem raisonance_and_default_lack_asm :
    (dialectTable Dialect.raisonance).asm = none ∧
    (dialectTable Dialect.raisonance).asmBegin = none ∧
    (dialectTable Dialect.raisonance).asmEnd = none ∧
    (dialectTable Dialect.unrecognized).asm = none :=
  ⟨rfl, rfl, rfl, rfl⟩

/-- C6 (amended): every dialect (each vendor branch and the default) defines
the nine declaration entry points VECT, SBIT, SFR, SFRBIT, SFRX, SFR16,
SFR16E, SFR32 and SFR32E (they are total fields of every descriptor), but
`ASM` and the asm-begin/asm-end delimiter pair are defined exactly under SDCC,
Keil and IAR. -/
theorem asm_entry_points_only_under_sdcc_keil_iar :
    ∀ d : Dialect,
      ((dialectTable d).asm.isSome ∧ (dialectTable d).asmBegin.isSome ∧
          (dialectTable d).asmEnd.isSome) ↔
        (d = Dialect.sdcc ∨ d = Dialect.keil ∨ d = Dialect.iar) := by
  intro d
  cases d <;>
    simp [dialectTable, sdccTable, keilTable, raisonanceTable, iarTable,
      taskingTable, hitechTable, crosswareTable, wickenhaeuserTable, defaultTable]

/-- C10: the `COMPILER_H` include guard (lines 69-70, 229) makes inclusion
idempotent: including the header a second time in the same unit leaves the
preprocessor state — and hence the set of macro definitions — exactly as
after the first inclusion. -/
theorem include_guard_idempotent (i : Identity) (e : PPEnv) :
    includeCompilerH i (includeCompilerH i e) = includeCompilerH i e ∧
    (includeCompilerH i { compilerH := false, table := none }).table =
      some (unitTable i) := by
  constructor
  · unfold includeCompilerH
    by_cases h : e.compilerH <;> simp [h]
  · rfl
